import Mathlib

/-!
Verification of the tropical-disease prediction core
(`fuzzy_app/fuzzy_logic.py`, `fuzzy_app/tropical_diseases.py`,
`fuzzy_app/ml_model.py`, `fuzzy_app/consensus.py`).

Numeric values are modelled as rationals; Python's `round(x, n)` is
modelled with Mathlib's `round` (nearest integer, ties up) scaled by
`10^n`.  The trained random-forest artifact is opaque, so the classifier
is a parameter `model : List ℚ → Disease → ℚ` mapping a feature vector
to per-disease raw probabilities; `sklearn`'s `predict_proba` guarantees
these sum to 1, which appears as a hypothesis where needed.
-/

/- Batteries marks the `Rat` field operations `@[irreducible]`, which
blocks `decide`-style evaluation of concrete rational arithmetic; the
kernel ignores reducibility, so restoring the default is safe and lets
concrete runs of the embedded functions be checked by `decide`/`rfl`. -/
set_option allowUnsafeReducibility true in
attribute [semireducible] Rat.add Rat.mul Rat.inv Rat.div Rat.sub Rat.neg
  Rat.ofScientific

set_option maxRecDepth 16000

namespace SC

/-- The 20 symptom keys of `tropical_diseases.SYMPTOM_ORDER`. -/
inductive Symptom
  | fever | headache | joint_pain | muscle_pain | rash
  | nausea_vomiting | fatigue | abdominal_pain | diarrhea
  | bleeding | chills | jaundice | dehydration | eye_pain
  | cough | sore_throat | runny_nose | congestion | sneezing
  | loss_of_appetite
deriving DecidableEq, Fintype, Repr

/-- The 10 disease names of `DISEASE_PROFILES` / `FUZZY_DISEASE_RULES`,
in source (dict) order. -/
inductive Disease
  | Malaria | DengueFever | TyphoidFever | Chikungunya | ZikaVirus
  | Leptospirosis | Cholera | YellowFever | CommonCold | Influenza
deriving DecidableEq, Fintype, Repr

/-- The fuzzy level names used in the two fuzzy-set families.
`normal`..`very_high` belong to the fever family; `none`..`very_severe`
to the shared severity family (`moderate` occurs in both). -/
inductive Level
  | normal | low_grade | moderate | high | very_high
  | none | mild | severe | very_severe
deriving DecidableEq, Fintype, Repr

/-- `SYMPTOM_ORDER`: the canonical feature-vector ordering. -/
def SYMPTOM_ORDER : List Symptom :=
  [.fever, .headache, .joint_pain, .muscle_pain, .rash,
   .nausea_vomiting, .fatigue, .abdominal_pain, .diarrhea,
   .bleeding, .chills, .jaundice, .dehydration, .eye_pain,
   .cough, .sore_throat, .runny_nose, .congestion, .sneezing,
   .loss_of_appetite]

/-- Disease names in `DISEASE_PROFILES` dict order. -/
def diseaseList : List Disease :=
  [.Malaria, .DengueFever, .TyphoidFever, .Chikungunya, .ZikaVirus,
   .Leptospirosis, .Cholera, .YellowFever, .CommonCold, .Influenza]

/-- `SYMPTOMS[key]['min']`. -/
def SYMPTOMS_min : Symptom → ℚ
  | .fever => 95.0
  | _ => 0

/-- `SYMPTOMS[key]['max']`. -/
def SYMPTOMS_max : Symptom → ℚ
  | .fever => 106.0
  | _ => 10

/-- `fuzzy_logic._triangular`: peak 1 at `b`, zero at `a` and `c`,
with a `1e-9` tolerance band around the peak. -/
def _triangular (x a b c : ℚ) : ℚ :=
  if x < a ∨ x > c then 0
  else if |x - b| < 1 / 1000000000 then 1
  else if a = b then (if c ≠ b then (c - x) / (c - b) else 0)
  else if b = c then (if b ≠ a then (x - a) / (b - a) else 0)
  else if x ≤ b then (x - a) / (b - a)
  else (c - x) / (c - b)

/-- `fuzzy_logic._trapezoidal`: plateau 1 on `[b, c]`, value `0.01`
exactly at `a` and at `d`, zero strictly outside `[a, d]`. -/
def _trapezoidal (x a b c d : ℚ) : ℚ :=
  if x < a ∨ x > d then 0
  else if b ≤ x ∧ x ≤ c then 1
  else if x ≤ a then 0.01
  else if x ≥ d then 0.01
  else if x < b then (if b ≠ a then (x - a) / (b - a) else 1)
  else (if d ≠ c then (d - x) / (d - c) else 1)

def _fever_normal (x : ℚ) : ℚ := _trapezoidal x 93.0 95.0 97.5 99.5
def _fever_low_grade (x : ℚ) : ℚ := _triangular x 98.0 99.5 101.0
def _fever_moderate (x : ℚ) : ℚ := _triangular x 99.5 101.0 102.5
def _fever_high (x : ℚ) : ℚ := _triangular x 101.0 102.5 104.5
def _fever_very_high (x : ℚ) : ℚ := _trapezoidal x 103.0 104.5 106.0 108.0

def _severity_none (x : ℚ) : ℚ := _trapezoidal x (-1.0) 0.0 0.5 2.5
def _severity_mild (x : ℚ) : ℚ := _triangular x 0.5 2.5 5.0
def _severity_moderate (x : ℚ) : ℚ := _triangular x 3.0 5.0 7.5
def _severity_severe (x : ℚ) : ℚ := _triangular x 5.5 7.5 9.5
def _severity_very_severe (x : ℚ) : ℚ := _trapezoidal x 7.5 8.5 10.0 11.0

/-- The level names of `FEVER_FUZZY_SETS`, in source order. -/
def FEVER_LEVELS : List Level := [.normal, .low_grade, .moderate, .high, .very_high]

/-- The level names of `SEVERITY_FUZZY_SETS`, in source order. -/
def SEVERITY_LEVELS : List Level := [.none, .mild, .moderate, .severe, .very_severe]

/-- Membership function of a named level of `FEVER_FUZZY_SETS`.
Levels outside the family (a would-be `KeyError` in the source, ruled
out by the knowledge-base integrity facts) are mapped to 0. -/
def feverMembership : Level → ℚ → ℚ
  | .normal => _fever_normal
  | .low_grade => _fever_low_grade
  | .moderate => _fever_moderate
  | .high => _fever_high
  | .very_high => _fever_very_high
  | _ => fun _ => 0

/-- Membership function of a named level of `SEVERITY_FUZZY_SETS`. -/
def severityMembership : Level → ℚ → ℚ
  | .none => _severity_none
  | .mild => _severity_mild
  | .moderate => _severity_moderate
  | .severe => _severity_severe
  | .very_severe => _severity_very_severe
  | _ => fun _ => 0

/-- Which family applies to a symptom: `fever` uses the fever family,
everything else the shared severity family. -/
def familyLevels (k : Symptom) : List Level :=
  if k = .fever then FEVER_LEVELS else SEVERITY_LEVELS

/-- Membership of `x` in level `lvl` of the family applicable to `k`
(the dispatch in `TropicalFuzzySystem.predict` / `get_membership`). -/
def membershipOf (k : Symptom) (lvl : Level) (x : ℚ) : ℚ :=
  if k = .fever then feverMembership lvl x else severityMembership lvl x

/-- `TropicalFuzzySystem.get_membership`: all memberships of a value
across the applicable family. -/
def get_membership (k : Symptom) (x : ℚ) : List (Level × ℚ) :=
  (familyLevels k).map (fun lvl => (lvl, membershipOf k lvl x))

/-- `FUZZY_DISEASE_RULES`: per disease, the list of
`(symptom, expected_level, weight)` rules, in source order. -/
def FUZZY_DISEASE_RULES : Disease → List (Symptom × Level × ℚ)
  | .Malaria =>
    [(.fever, .high, 0.80), (.headache, .severe, 0.55),
     (.joint_pain, .mild, 0.20), (.muscle_pain, .moderate, 0.40),
     (.rash, .none, 0.40), (.nausea_vomiting, .moderate, 0.40),
     (.fatigue, .severe, 0.55), (.abdominal_pain, .mild, 0.30),
     (.diarrhea, .mild, 0.30), (.bleeding, .none, 0.35),
     (.chills, .very_severe, 0.95), (.jaundice, .none, 0.25),
     (.dehydration, .moderate, 0.30), (.eye_pain, .none, 0.25),
     (.cough, .none, 0.30), (.sore_throat, .none, 0.30),
     (.runny_nose, .none, 0.35), (.congestion, .none, 0.30),
     (.sneezing, .none, 0.30), (.loss_of_appetite, .severe, 0.40)]
  | .DengueFever =>
    [(.fever, .high, 0.75), (.headache, .severe, 0.70),
     (.joint_pain, .severe, 0.90), (.muscle_pain, .severe, 0.70),
     (.rash, .moderate, 0.85), (.nausea_vomiting, .moderate, 0.45),
     (.fatigue, .severe, 0.45), (.abdominal_pain, .moderate, 0.40),
     (.diarrhea, .mild, 0.15), (.bleeding, .moderate, 0.80),
     (.chills, .moderate, 0.25), (.jaundice, .none, 0.30),
     (.dehydration, .moderate, 0.30), (.eye_pain, .severe, 0.90),
     (.cough, .none, 0.40), (.sore_throat, .none, 0.35),
     (.runny_nose, .none, 0.40), (.congestion, .none, 0.30),
     (.sneezing, .none, 0.35), (.loss_of_appetite, .severe, 0.40)]
  | .TyphoidFever =>
    [(.fever, .high, 0.75), (.headache, .moderate, 0.45),
     (.joint_pain, .none, 0.30), (.muscle_pain, .mild, 0.25),
     (.rash, .mild, 0.25), (.nausea_vomiting, .moderate, 0.50),
     (.fatigue, .severe, 0.65), (.abdominal_pain, .severe, 0.90),
     (.diarrhea, .severe, 0.90), (.bleeding, .none, 0.30),
     (.chills, .mild, 0.20), (.jaundice, .none, 0.25),
     (.dehydration, .moderate, 0.50), (.eye_pain, .none, 0.25),
     (.cough, .none, 0.30), (.sore_throat, .none, 0.25),
     (.runny_nose, .none, 0.35), (.congestion, .none, 0.25),
     (.sneezing, .none, 0.30), (.loss_of_appetite, .severe, 0.85)]
  | .Chikungunya =>
    [(.fever, .high, 0.70), (.headache, .moderate, 0.40),
     (.joint_pain, .very_severe, 0.95), (.muscle_pain, .moderate, 0.50),
     (.rash, .moderate, 0.75), (.nausea_vomiting, .mild, 0.25),
     (.fatigue, .moderate, 0.40), (.abdominal_pain, .none, 0.30),
     (.diarrhea, .none, 0.35), (.bleeding, .none, 0.65),
     (.chills, .moderate, 0.25), (.jaundice, .none, 0.45),
     (.dehydration, .mild, 0.20), (.eye_pain, .mild, 0.25),
     (.cough, .none, 0.35), (.sore_throat, .none, 0.30),
     (.runny_nose, .none, 0.35), (.congestion, .none, 0.30),
     (.sneezing, .none, 0.30), (.loss_of_appetite, .moderate, 0.30)]
  | .ZikaVirus =>
    [(.fever, .low_grade, 0.80), (.headache, .moderate, 0.35),
     (.joint_pain, .moderate, 0.45), (.muscle_pain, .mild, 0.35),
     (.rash, .severe, 0.90), (.nausea_vomiting, .mild, 0.20),
     (.fatigue, .moderate, 0.30), (.abdominal_pain, .none, 0.25),
     (.diarrhea, .none, 0.25), (.bleeding, .none, 0.50),
     (.chills, .mild, 0.20), (.jaundice, .none, 0.45),
     (.dehydration, .none, 0.20), (.eye_pain, .moderate, 0.85),
     (.cough, .none, 0.25), (.sore_throat, .none, 0.20),
     (.runny_nose, .none, 0.20), (.congestion, .none, 0.20),
     (.sneezing, .none, 0.20), (.loss_of_appetite, .mild, 0.20)]
  | .Leptospirosis =>
    [(.fever, .high, 0.75), (.headache, .severe, 0.65),
     (.joint_pain, .moderate, 0.35), (.muscle_pain, .very_severe, 0.95),
     (.rash, .none, 0.35), (.nausea_vomiting, .moderate, 0.50),
     (.fatigue, .severe, 0.55), (.abdominal_pain, .moderate, 0.40),
     (.diarrhea, .mild, 0.25), (.bleeding, .mild, 0.40),
     (.chills, .moderate, 0.45), (.jaundice, .severe, 0.85),
     (.dehydration, .moderate, 0.30), (.eye_pain, .moderate, 0.70),
     (.cough, .mild, 0.25), (.sore_throat, .none, 0.20),
     (.runny_nose, .none, 0.25), (.congestion, .none, 0.20),
     (.sneezing, .none, 0.20), (.loss_of_appetite, .severe, 0.45)]
  | .Cholera =>
    [(.fever, .normal, 0.80), (.headache, .mild, 0.25),
     (.joint_pain, .none, 0.35), (.muscle_pain, .mild, 0.35),
     (.rash, .none, 0.50), (.nausea_vomiting, .very_severe, 0.80),
     (.fatigue, .severe, 0.50), (.abdominal_pain, .moderate, 0.50),
     (.diarrhea, .very_severe, 0.95), (.bleeding, .none, 0.50),
     (.chills, .none, 0.30), (.jaundice, .none, 0.45),
     (.dehydration, .very_severe, 0.95), (.eye_pain, .none, 0.30),
     (.cough, .none, 0.30), (.sore_throat, .none, 0.25),
     (.runny_nose, .none, 0.25), (.congestion, .none, 0.25),
     (.sneezing, .none, 0.25), (.loss_of_appetite, .severe, 0.55)]
  | .YellowFever =>
    [(.fever, .very_high, 0.85), (.headache, .severe, 0.60),
     (.joint_pain, .mild, 0.25), (.muscle_pain, .moderate, 0.50),
     (.rash, .none, 0.35), (.nausea_vomiting, .severe, 0.65),
     (.fatigue, .severe, 0.55), (.abdominal_pain, .moderate, 0.40),
     (.diarrhea, .mild, 0.25), (.bleeding, .severe, 0.90),
     (.chills, .moderate, 0.40), (.jaundice, .very_severe, 0.95),
     (.dehydration, .moderate, 0.40), (.eye_pain, .mild, 0.25),
     (.cough, .none, 0.30), (.sore_throat, .none, 0.25),
     (.runny_nose, .none, 0.30), (.congestion, .none, 0.25),
     (.sneezing, .none, 0.25), (.loss_of_appetite, .severe, 0.45)]
  | .CommonCold =>
    [(.fever, .normal, 0.80), (.headache, .mild, 0.25),
     (.joint_pain, .none, 0.35), (.muscle_pain, .none, 0.30),
     (.rash, .none, 0.45), (.nausea_vomiting, .none, 0.40),
     (.fatigue, .mild, 0.30), (.abdominal_pain, .none, 0.40),
     (.diarrhea, .none, 0.40), (.bleeding, .none, 0.55),
     (.chills, .none, 0.35), (.jaundice, .none, 0.55),
     (.dehydration, .none, 0.30), (.eye_pain, .none, 0.25),
     (.cough, .moderate, 0.55), (.sore_throat, .moderate, 0.85),
     (.runny_nose, .severe, 0.95), (.congestion, .severe, 0.95),
     (.sneezing, .moderate, 0.85), (.loss_of_appetite, .none, 0.20)]
  | .Influenza =>
    [(.fever, .high, 0.85), (.headache, .moderate, 0.45),
     (.joint_pain, .moderate, 0.30), (.muscle_pain, .severe, 0.85),
     (.rash, .none, 0.40), (.nausea_vomiting, .mild, 0.20),
     (.fatigue, .severe, 0.90), (.abdominal_pain, .none, 0.25),
     (.diarrhea, .none, 0.25), (.bleeding, .none, 0.45),
     (.chills, .moderate, 0.45), (.jaundice, .none, 0.45),
     (.dehydration, .mild, 0.20), (.eye_pain, .none, 0.30),
     (.cough, .severe, 0.90), (.sore_throat, .moderate, 0.50),
     (.runny_nose, .moderate, 0.30), (.congestion, .mild, 0.25),
     (.sneezing, .mild, 0.15), (.loss_of_appetite, .moderate, 0.40)]

/-- `DISEASE_PROFILES[...]['symptoms']`: per disease, the list of
`(symptom, prevalence, severity_mean, severity_std)` entries, in
source order. -/
def DISEASE_PROFILES : Disease → List (Symptom × ℚ × ℚ × ℚ)
  | .Malaria =>
    [(.fever, 0.96, 102.5, 1.5), (.headache, 0.70, 6.5, 1.5),
     (.joint_pain, 0.25, 3.5, 1.5), (.muscle_pain, 0.50, 5.5, 1.5),
     (.rash, 0.05, 2.0, 1.0), (.nausea_vomiting, 0.40, 5.0, 1.5),
     (.fatigue, 0.75, 7.0, 1.5), (.abdominal_pain, 0.20, 4.0, 1.5),
     (.diarrhea, 0.25, 4.0, 1.5), (.bleeding, 0.05, 3.0, 1.5),
     (.chills, 0.85, 8.0, 1.2), (.jaundice, 0.10, 4.5, 1.5),
     (.dehydration, 0.35, 4.5, 1.5), (.eye_pain, 0.08, 2.0, 1.0),
     (.cough, 0.18, 3.0, 1.5), (.sore_throat, 0.05, 2.0, 1.0),
     (.runny_nose, 0.03, 1.5, 1.0), (.congestion, 0.03, 1.5, 1.0),
     (.sneezing, 0.02, 1.0, 0.8), (.loss_of_appetite, 0.65, 6.5, 1.5)]
  | .DengueFever =>
    [(.fever, 0.97, 103.0, 1.2), (.headache, 0.90, 7.5, 1.2),
     (.joint_pain, 0.70, 7.5, 1.5), (.muscle_pain, 0.85, 7.0, 1.5),
     (.rash, 0.65, 5.5, 1.5), (.nausea_vomiting, 0.55, 5.5, 1.5),
     (.fatigue, 0.80, 7.0, 1.2), (.abdominal_pain, 0.35, 5.0, 1.5),
     (.diarrhea, 0.15, 3.5, 1.5), (.bleeding, 0.25, 4.5, 2.0),
     (.chills, 0.45, 5.0, 1.5), (.jaundice, 0.03, 2.0, 1.0),
     (.dehydration, 0.40, 4.5, 1.5), (.eye_pain, 0.55, 6.5, 1.5),
     (.cough, 0.10, 2.5, 1.0), (.sore_throat, 0.15, 3.0, 1.5),
     (.runny_nose, 0.05, 2.0, 1.0), (.congestion, 0.05, 2.0, 1.0),
     (.sneezing, 0.03, 1.0, 0.8), (.loss_of_appetite, 0.70, 7.0, 1.5)]
  | .TyphoidFever =>
    [(.fever, 0.95, 102.0, 1.0), (.headache, 0.65, 6.0, 1.5),
     (.joint_pain, 0.10, 3.0, 1.5), (.muscle_pain, 0.25, 4.0, 1.5),
     (.rash, 0.20, 3.0, 1.5), (.nausea_vomiting, 0.45, 5.5, 1.5),
     (.fatigue, 0.80, 7.5, 1.2), (.abdominal_pain, 0.55, 6.5, 1.5),
     (.diarrhea, 0.45, 6.0, 1.5), (.bleeding, 0.05, 3.0, 1.5),
     (.chills, 0.30, 4.0, 1.5), (.jaundice, 0.05, 2.5, 1.0),
     (.dehydration, 0.40, 5.0, 1.5), (.eye_pain, 0.05, 2.0, 1.0),
     (.cough, 0.15, 3.0, 1.5), (.sore_throat, 0.08, 2.5, 1.0),
     (.runny_nose, 0.03, 1.5, 1.0), (.congestion, 0.03, 1.5, 1.0),
     (.sneezing, 0.02, 1.0, 0.8), (.loss_of_appetite, 0.75, 7.5, 1.2)]
  | .Chikungunya =>
    [(.fever, 0.92, 102.5, 1.2), (.headache, 0.60, 6.0, 1.5),
     (.joint_pain, 0.90, 8.5, 1.0), (.muscle_pain, 0.60, 6.5, 1.5),
     (.rash, 0.55, 5.5, 1.5), (.nausea_vomiting, 0.30, 4.0, 1.5),
     (.fatigue, 0.60, 6.5, 1.5), (.abdominal_pain, 0.10, 3.0, 1.5),
     (.diarrhea, 0.08, 2.5, 1.0), (.bleeding, 0.02, 2.0, 1.0),
     (.chills, 0.40, 5.0, 1.5), (.jaundice, 0.02, 1.5, 1.0),
     (.dehydration, 0.20, 3.5, 1.5), (.eye_pain, 0.25, 4.0, 1.5),
     (.cough, 0.05, 2.0, 1.0), (.sore_throat, 0.05, 2.0, 1.0),
     (.runny_nose, 0.03, 1.5, 1.0), (.congestion, 0.03, 1.5, 1.0),
     (.sneezing, 0.02, 1.0, 0.8), (.loss_of_appetite, 0.50, 6.0, 1.5)]
  | .ZikaVirus =>
    [(.fever, 0.65, 99.5, 0.8), (.headache, 0.45, 4.5, 1.5),
     (.joint_pain, 0.65, 5.0, 1.5), (.muscle_pain, 0.48, 4.0, 1.5),
     (.rash, 0.90, 6.5, 1.5), (.nausea_vomiting, 0.15, 3.0, 1.5),
     (.fatigue, 0.45, 4.5, 1.5), (.abdominal_pain, 0.05, 2.0, 1.0),
     (.diarrhea, 0.05, 2.0, 1.0), (.bleeding, 0.01, 1.0, 0.5),
     (.chills, 0.15, 3.0, 1.5), (.jaundice, 0.01, 1.0, 0.5),
     (.dehydration, 0.10, 2.5, 1.0), (.eye_pain, 0.60, 5.5, 1.5),
     (.cough, 0.05, 2.0, 1.0), (.sore_throat, 0.05, 2.0, 1.0),
     (.runny_nose, 0.05, 2.0, 1.0), (.congestion, 0.03, 1.5, 1.0),
     (.sneezing, 0.02, 1.0, 0.8), (.loss_of_appetite, 0.30, 4.0, 1.5)]
  | .Leptospirosis =>
    [(.fever, 0.95, 102.5, 1.2), (.headache, 0.85, 7.0, 1.2),
     (.joint_pain, 0.35, 4.5, 1.5), (.muscle_pain, 0.90, 8.0, 1.2),
     (.rash, 0.08, 2.5, 1.0), (.nausea_vomiting, 0.50, 6.0, 1.5),
     (.fatigue, 0.70, 7.0, 1.5), (.abdominal_pain, 0.40, 5.0, 1.5),
     (.diarrhea, 0.25, 4.0, 1.5), (.bleeding, 0.15, 4.0, 2.0),
     (.chills, 0.55, 6.0, 1.5), (.jaundice, 0.20, 6.5, 1.5),
     (.dehydration, 0.35, 4.5, 1.5), (.eye_pain, 0.40, 5.0, 1.5),
     (.cough, 0.20, 3.5, 1.5), (.sore_throat, 0.05, 2.0, 1.0),
     (.runny_nose, 0.03, 1.5, 1.0), (.congestion, 0.03, 1.5, 1.0),
     (.sneezing, 0.02, 1.0, 0.8), (.loss_of_appetite, 0.60, 6.5, 1.5)]
  | .Cholera =>
    [(.fever, 0.10, 99.5, 0.8), (.headache, 0.20, 3.5, 1.5),
     (.joint_pain, 0.05, 2.0, 1.0), (.muscle_pain, 0.35, 4.5, 1.5),
     (.rash, 0.01, 1.0, 0.5), (.nausea_vomiting, 0.70, 7.5, 1.2),
     (.fatigue, 0.60, 6.5, 1.5), (.abdominal_pain, 0.40, 5.0, 1.5),
     (.diarrhea, 0.98, 9.0, 0.8), (.bleeding, 0.01, 1.0, 0.5),
     (.chills, 0.10, 2.5, 1.0), (.jaundice, 0.01, 1.0, 0.5),
     (.dehydration, 0.90, 8.5, 1.0), (.eye_pain, 0.02, 1.5, 0.8),
     (.cough, 0.02, 1.5, 0.8), (.sore_throat, 0.02, 1.5, 0.8),
     (.runny_nose, 0.01, 1.0, 0.5), (.congestion, 0.01, 1.0, 0.5),
     (.sneezing, 0.01, 1.0, 0.5), (.loss_of_appetite, 0.70, 7.5, 1.2)]
  | .YellowFever =>
    [(.fever, 0.98, 103.5, 1.2), (.headache, 0.75, 7.0, 1.5),
     (.joint_pain, 0.20, 3.5, 1.5), (.muscle_pain, 0.55, 6.0, 1.5),
     (.rash, 0.05, 2.0, 1.0), (.nausea_vomiting, 0.60, 7.0, 1.5),
     (.fatigue, 0.70, 7.0, 1.5), (.abdominal_pain, 0.35, 5.0, 1.5),
     (.diarrhea, 0.15, 3.5, 1.5), (.bleeding, 0.20, 6.5, 2.0),
     (.chills, 0.50, 5.5, 1.5), (.jaundice, 0.30, 7.5, 1.5),
     (.dehydration, 0.40, 5.0, 1.5), (.eye_pain, 0.15, 3.0, 1.5),
     (.cough, 0.05, 2.0, 1.0), (.sore_throat, 0.03, 1.5, 1.0),
     (.runny_nose, 0.02, 1.0, 0.5), (.congestion, 0.02, 1.0, 0.5),
     (.sneezing, 0.01, 1.0, 0.5), (.loss_of_appetite, 0.65, 7.0, 1.5)]
  | .CommonCold =>
    [(.fever, 0.15, 99.5, 0.6), (.headache, 0.35, 3.5, 1.5),
     (.joint_pain, 0.05, 2.0, 1.0), (.muscle_pain, 0.15, 2.5, 1.0),
     (.rash, 0.01, 1.0, 0.5), (.nausea_vomiting, 0.03, 2.0, 1.0),
     (.fatigue, 0.30, 3.5, 1.5), (.abdominal_pain, 0.02, 1.5, 0.8),
     (.diarrhea, 0.02, 1.5, 0.8), (.bleeding, 0.00, 0.0, 0.0),
     (.chills, 0.10, 2.5, 1.0), (.jaundice, 0.00, 0.0, 0.0),
     (.dehydration, 0.05, 2.0, 1.0), (.eye_pain, 0.10, 2.5, 1.0),
     (.cough, 0.50, 4.0, 1.5), (.sore_throat, 0.65, 5.0, 1.5),
     (.runny_nose, 0.90, 6.5, 1.5), (.congestion, 0.88, 6.5, 1.5),
     (.sneezing, 0.65, 5.5, 1.5), (.loss_of_appetite, 0.15, 3.0, 1.5)]
  | .Influenza =>
    [(.fever, 0.80, 102.0, 1.0), (.headache, 0.55, 5.5, 1.5),
     (.joint_pain, 0.35, 4.5, 1.5), (.muscle_pain, 0.70, 6.5, 1.5),
     (.rash, 0.02, 1.5, 0.8), (.nausea_vomiting, 0.15, 3.5, 1.5),
     (.fatigue, 0.85, 7.5, 1.2), (.abdominal_pain, 0.05, 2.5, 1.0),
     (.diarrhea, 0.08, 2.5, 1.0), (.bleeding, 0.01, 1.0, 0.5),
     (.chills, 0.50, 5.5, 1.5), (.jaundice, 0.00, 0.0, 0.0),
     (.dehydration, 0.25, 3.5, 1.5), (.eye_pain, 0.15, 3.0, 1.5),
     (.cough, 0.88, 6.0, 1.5), (.sore_throat, 0.60, 5.0, 1.5),
     (.runny_nose, 0.50, 4.5, 1.5), (.congestion, 0.45, 4.0, 1.5),
     (.sneezing, 0.20, 3.0, 1.5), (.loss_of_appetite, 0.60, 6.0, 1.5)]

/-- A symptom input: the (already range-validated) partial map from
symptom key to numeric value. `none` means "not reported". -/
def Input : Type := Symptom → Option ℚ

/-- Python `round(x, 4)` (modelled with `round` on ℚ). -/
def round4 (q : ℚ) : ℚ := (round (q * 10000) : ℤ) / 10000

/-- Python `round(x, 1)`. -/
def round1 (q : ℚ) : ℚ := (round (q * 10) : ℤ) / 10

/-- The accumulated `weighted_sum` of `TropicalFuzzySystem.predict`
over a rule list: membership of the input value in the expected level,
times the rule weight, for every rule whose symptom was provided. -/
def weightedSum (input : Input) : List (Symptom × Level × ℚ) → ℚ
  | [] => 0
  | (k, lvl, w) :: rest =>
      (match input k with
       | some v => membershipOf k lvl v * w
       | Option.none => 0) + weightedSum input rest

/-- The accumulated `total_weight` of `TropicalFuzzySystem.predict`. -/
def totalWeight (input : Input) : List (Symptom × Level × ℚ) → ℚ
  | [] => 0
  | (k, _, w) :: rest =>
      (if (input k).isSome then w else 0) + totalWeight input rest

/-- One disease's entry in `TropicalFuzzySystem.predict`: the rounded
weighted-average membership, present only when some applicable rule
matched (`total_weight > 0`). -/
def fuzzyScore (input : Input) (d : Disease) : Option ℚ :=
  let tw := totalWeight input (FUZZY_DISEASE_RULES d)
  if 0 < tw then some (round4 (weightedSum input (FUZZY_DISEASE_RULES d) / tw))
  else Option.none

/-- `TropicalFuzzySystem.predict` as an association list in disease
(dict-insertion) order; the source sorts this descending before
returning, which only permutes it. -/
def fuzzyScores (input : Input) : List (Disease × ℚ) :=
  if SYMPTOM_ORDER.all (fun k => (input k).isNone) then []
  else diseaseList.filterMap (fun d => (fuzzyScore input d).map (fun s => (d, s)))

/-- Descending order on scored diseases (the `key=..., reverse=True`
sort of the source). -/
def scoreGE (p q : Disease × ℚ) : Prop := q.2 ≤ p.2

instance : DecidableRel scoreGE := fun p q => inferInstanceAs (Decidable (q.2 ≤ p.2))

instance : IsTotal (Disease × ℚ) scoreGE := ⟨fun p q => le_total q.2 p.2⟩

instance : IsTrans (Disease × ℚ) scoreGE := ⟨fun _ _ _ h1 h2 => le_trans h2 h1⟩

/-- Descending order on raw score values. -/
def ratGE (a b : ℚ) : Prop := b ≤ a

instance : DecidableRel ratGE := fun a b => inferInstanceAs (Decidable (b ≤ a))

instance : IsTotal ℚ ratGE := ⟨fun a b => le_total b a⟩

instance : IsTrans ℚ ratGE := ⟨fun _ _ _ h1 h2 => le_trans h2 h1⟩

/-- Python's `max(d, key=d.get)` over an association list: the first
entry whose score is not exceeded later (ties keep the earlier entry). -/
def maxByScore : List (Disease × ℚ) → Option (Disease × ℚ)
  | [] => Option.none
  | p :: rest => some (rest.foldl (fun best q => if best.2 < q.2 then q else best) p)

/-- `ml_model.BASELINE_VALUES`: healthy default for an unreported
symptom (98.6 °F for fever, 0 otherwise). -/
def BASELINE_VALUES (k : Symptom) : ℚ := if k = .fever then 98.6 else 0

/-- The 20-dimensional feature vector of `RFPredictor.predict`, built
in `SYMPTOM_ORDER`, missing keys filled with their baseline. -/
def featureVector (input : Input) : List ℚ :=
  SYMPTOM_ORDER.map (fun k => (input k).getD (BASELINE_VALUES k))

/-- One disease's probability as reported by `RFPredictor.predict`
(dict lookup): the model's raw probability rounded to 4 decimals. -/
def rfProb (model : List ℚ → Disease → ℚ) (input : Input) (d : Disease) : ℚ :=
  round4 (model (featureVector input) d)

/-- `RFPredictor.predict`: empty input short-circuits to `{}`;
otherwise all classes with rounded probabilities, sorted descending. -/
def rf_predict (model : List ℚ → Disease → ℚ) (input : Input) : List (Disease × ℚ) :=
  if SYMPTOM_ORDER.all (fun k => (input k).isNone) then []
  else List.insertionSort scoreGE (diseaseList.map (fun d => (d, rfProb model input d)))

/-- `len(symptom_values)`: number of provided symptoms. -/
def numProvided (input : Input) : ℕ :=
  (SYMPTOM_ORDER.filter (fun k => (input k).isSome)).length

/-- The completeness-based default weighting of `consensus_predict`
(lines 66-74), as a function of the number of provided symptoms:
`(fuzzy_weight, rf_weight)`. -/
def defaultWeights (n : ℕ) : ℚ × ℚ :=
  if (n : ℚ) / 20 < 0.30 then (0.65, 0.35)
  else if (n : ℚ) / 20 < 0.60 then (0.50, 0.50)
  else (0.40, 0.60)

/-- `sum(fuzzy_scores.values())`. -/
def fuzzyTotal (input : Input) : ℚ := ((fuzzyScores input).map Prod.snd).sum

/-- The normalized fuzzy distribution (with default 0 for diseases
without a fuzzy entry, matching `fuzzy_normalized.get(d, 0.0)`); when
the raw sum is 0, every disease is assigned 0. -/
def fuzzyNormalized (input : Input) (d : Disease) : ℚ :=
  if 0 < fuzzyTotal input then ((fuzzyScore input d).getD 0) / fuzzyTotal input
  else 0

/-- The fuzzy confidence gap (lines 92-96): `(top1 - top2) / top1` over
the raw fuzzy scores sorted descending, or 1.0 when fewer than two
diseases scored or the top score is not positive. -/
def fuzzyGap (input : Input) : ℚ :=
  match List.insertionSort ratGE ((fuzzyScores input).map Prod.snd) with
  | v0 :: v1 :: _ => if 0 < v0 then (v0 - v1) / v0 else 1
  | _ => 1

/-- The fuzzy-uncertainty override (lines 99-101): when the gap is
below 0.15 the fuzzy weight is halved, floored at 0.15, and the RF
weight is recomputed as its complement. -/
def adjustWeights (gap fw rw : ℚ) : ℚ × ℚ :=
  if gap < 0.15 then (max (fw * 0.5) 0.15, 1 - max (fw * 0.5) 0.15)
  else (fw, rw)

/-- The effective `(fuzzy_weight, rf_weight)` used by
`consensus_predict` when no override is supplied. -/
def consensusWeights (input : Input) : ℚ × ℚ :=
  adjustWeights (fuzzyGap input) (defaultWeights (numProvided input)).1
    (defaultWeights (numProvided input)).2

/-- The consensus score map (lines 104-110): convex combination of the
normalized fuzzy score and the RF probability, rounded to 4 decimals,
over the union of both models' diseases (always all 10). -/
def consensusScores (input : Input) (model : List ℚ → Disease → ℚ) :
    List (Disease × ℚ) :=
  diseaseList.map (fun d =>
    (d, round4 ((consensusWeights input).1 * fuzzyNormalized input d +
                (consensusWeights input).2 * rfProb model input d)))

/-- Display names of the diseases (`DISEASE_PROFILES` keys). -/
def diseaseName : Disease → String
  | .Malaria => "Malaria"
  | .DengueFever => "Dengue Fever"
  | .TyphoidFever => "Typhoid Fever"
  | .Chikungunya => "Chikungunya"
  | .ZikaVirus => "Zika Virus"
  | .Leptospirosis => "Leptospirosis"
  | .Cholera => "Cholera"
  | .YellowFever => "Yellow Fever"
  | .CommonCold => "Common Cold"
  | .Influenza => "Influenza"

/-- The validation block built by `consensus._build_validation`. -/
structure ValidationBlock where
  status : String
  reliability_score : ℚ
  confidence_level : String
  data_completeness : ℚ
  prediction_certainty : ℚ
  models_agree : Bool
  symptoms_provided : String
  warnings : List String
  recommendations : List String
deriving DecidableEq, Repr

/-- `consensus._build_validation`. -/
def _build_validation (input : Input) (consensus : List (Disease × ℚ))
    (fuzzy_scores rf_probs : List (Disease × ℚ))
    (models_agree : Bool) (confidence_level : String) : ValidationBlock :=
  let total_symptoms := SYMPTOM_ORDER.length
  let provided := numProvided input
  let completeness := round1 ((provided : ℚ) / (total_symptoms : ℚ) * 100)
  let top_consensus := (consensus.head?.map Prod.snd).getD 0
  let certainty : ℚ :=
    match consensus.map Prod.snd with
    | v0 :: v1 :: _ => round1 ((v0 - v1) / max v0 0.001 * 100)
    | _ => 100.0
  let reliability0 := round1 (top_consensus * 100 * 0.30 +
    (if models_agree then (1.0 : ℚ) else 0.5) * 30 +
    min completeness 100 * 0.25 + min certainty 100 * 0.15)
  let reliability := min reliability0 100.0
  let status :=
    if 70 ≤ reliability then "reliable"
    else if 50 ≤ reliability then "moderate"
    else "uncertain"
  let fuzzy_top_name := ((maxByScore fuzzy_scores).map (fun p => diseaseName p.1)).getD "?"
  let rf_top_name := ((maxByScore rf_probs).map (fun p => diseaseName p.1)).getD "?"
  let warnings :=
    (if completeness < 50 then
      ["Only " ++ toString provided ++ "/" ++ toString total_symptoms ++
       " symptoms provided. More data improves accuracy."] else []) ++
    (if models_agree then [] else
      ["Models disagree: Fuzzy suggests " ++ fuzzy_top_name ++
       ", RF suggests " ++ rf_top_name ++ "."]) ++
    (if certainty < 30 then
      ["Multiple diseases have similar scores — prediction is ambiguous."] else []) ++
    (if top_consensus < 0.15 then
      ["Low overall confidence. Symptoms may not clearly match any single disease."] else [])
  let recommendations :=
    (if completeness < 70 then
      ["Provide more symptom values for improved accuracy."] else []) ++
    ["This is a screening tool only — consult a healthcare professional for proper diagnosis."] ++
    (if models_agree then [] else
      ["Consider both suggested diseases and discuss with a doctor."])
  { status := status
    reliability_score := reliability
    confidence_level := confidence_level
    data_completeness := completeness
    prediction_certainty := certainty
    models_agree := models_agree
    symptoms_provided := toString provided ++ "/" ++ toString total_symptoms
    warnings := warnings
    recommendations := recommendations }

/-- The structured result of `consensus_predict`.  `predictions` holds
the top-3 display rows as `(disease, confidence%, fuzzy%, rf%)` (the
textual profile metadata attached in the source carries no logic);
`fuzzy_details` models `get_detailed_analysis` by its top disease and
score (its per-symptom rows are not referenced by any claim). -/
structure ConsensusResult where
  predictions : List (Disease × ℚ × ℚ × ℚ)
  consensus_top : Option Disease
  fuzzy_top : Option Disease
  rf_top : Option Disease
  models_agree : Bool
  confidence_level : String
  validation : ValidationBlock
  fuzzy_details : Option (Disease × ℚ)
  symptom_values : Input

/-- `consensus._empty_result`. -/
def _empty_result : ConsensusResult :=
  { predictions := []
    consensus_top := Option.none
    fuzzy_top := Option.none
    rf_top := Option.none
    models_agree := false
    confidence_level := "Low"
    validation :=
      { status := "uncertain"
        reliability_score := 0
        confidence_level := "Low"
        data_completeness := 0
        prediction_certainty := 0
        models_agree := false
        symptoms_provided := "0/" ++ toString SYMPTOM_ORDER.length
        warnings := ["No symptoms provided."]
        recommendations := ["Please enter at least a few symptom values."] }
    fuzzy_details := Option.none
    symptom_values := fun _ => Option.none }

/-- `consensus.consensus_predict` without weight overrides, over an
opaque classifier `model`. -/
def consensus_predict (input : Input) (model : List ℚ → Disease → ℚ) :
    ConsensusResult :=
  if SYMPTOM_ORDER.all (fun k => (input k).isNone) then _empty_result
  else
    let fuzzy_scores := fuzzyScores input
    let rf_probs := rf_predict model input
    let consensus_sorted := List.insertionSort scoreGE (consensusScores input model)
    let fuzzy_top := (maxByScore fuzzy_scores).map Prod.fst
    let rf_top := (maxByScore rf_probs).map Prod.fst
    let consensus_top := consensus_sorted.head?.map Prod.fst
    let models_agree := decide (fuzzy_top = rf_top)
    let top_score := (consensus_sorted.head?.map Prod.snd).getD 0
    let confidence_level :=
      if models_agree = true ∧ 0.25 ≤ top_score then "High"
      else if models_agree = true ∨ 0.20 ≤ top_score then "Medium"
      else "Low"
    let validation := _build_validation input consensus_sorted fuzzy_scores
      rf_probs models_agree confidence_level
    let predictions := (consensus_sorted.take 3).map (fun p =>
      (p.1, round1 (p.2 * 100), round1 (((fuzzyScore input p.1).getD 0) * 100),
        round1 (rfProb model input p.1 * 100)))
    { predictions := predictions
      consensus_top := consensus_top
      fuzzy_top := fuzzy_top
      rf_top := rf_top
      models_agree := models_agree
      confidence_level := confidence_level
      validation := validation
      fuzzy_details := maxByScore fuzzy_scores
      symptom_values := input }

/-- `max(fuzzy_scores, key=fuzzy_scores.get)` lifted out of
`consensus_predict` (the fuzzy engine's top disease). -/
def fuzzyTop (input : Input) : Option Disease :=
  (maxByScore (fuzzyScores input)).map Prod.fst

/-- Modelled from the spec: the startup-time knowledge-base integrity
check of §4.1/§7 ("must fail fast at load time if any disease profile
is missing a symptom entry, any prevalence is outside [0,1], or any
fuzzy rule references an undefined fuzzy level").  No file under `src/`
implements this validator, so it is modelled from the spec's words as a
predicate over knowledge-base tables. -/
def kbIntegrity (profiles : Disease → List (Symptom × ℚ × ℚ × ℚ))
    (rules : Disease → List (Symptom × Level × ℚ)) : Prop :=
  (∀ d : Disease, ∀ k : Symptom, ∃ e ∈ profiles d, e.1 = k) ∧
  (∀ d : Disease, ∀ e ∈ profiles d, 0 ≤ e.2.1 ∧ e.2.1 ≤ 1) ∧
  (∀ d : Disease, ∀ e ∈ rules d, e.2.1 ∈ familyLevels e.1)

instance (P : Disease → List (Symptom × ℚ × ℚ × ℚ))
    (R : Disease → List (Symptom × Level × ℚ)) : Decidable (kbIntegrity P R) := by
  unfold kbIntegrity
  infer_instance

/-- Modelled from the spec: initialization succeeds (yielding the
knowledge base) exactly when the integrity check passes, and refuses
(`none`) otherwise. -/
def initKnowledgeBase (P : Disease → List (Symptom × ℚ × ℚ × ℚ))
    (R : Disease → List (Symptom × Level × ℚ)) :
    Option ((Disease → List (Symptom × ℚ × ℚ × ℚ)) ×
      (Disease → List (Symptom × Level × ℚ))) :=
  if kbIntegrity P R then some (P, R) else Option.none

/-- The classic-malaria validation input of
`VALIDATION_TEST_CASES[0]`. -/
def input7 : Input := fun k =>
  match k with
  | .fever => some 103.0
  | .headache => some 7
  | .chills => some 9
  | .fatigue => some 7
  | .muscle_pain => some 5
  | .nausea_vomiting => some 5
  | .loss_of_appetite => some 6
  | _ => Option.none

/-- A one-symptom input whose value (10) has membership 0 in every
disease's expected headache level, zeroing every raw fuzzy score. -/
def inputHeadache10 : Input := fun k =>
  match k with
  | .headache => some 10
  | _ => Option.none

/-- A one-symptom input on which six diseases tie for the top raw fuzzy
score, making the fuzzy confidence gap 0. -/
def inputFever103 : Input := fun k =>
  match k with
  | .fever => some 103.0
  | _ => Option.none

/-- The empty symptom map. -/
def emptyInput : Input := fun _ => Option.none

/-- A concrete stand-in classifier returning the uniform distribution
(it satisfies `predict_proba`'s sum-to-1 contract). -/
def uniformModel : List ℚ → Disease → ℚ := fun _ _ => 1 / 10

/-! ### Basic facts about the membership functions -/

theorem _triangular_mem (x a b c : ℚ) (hab : a < b) (hbc : b < c) :
    0 ≤ _triangular x a b c ∧ _triangular x a b c ≤ 1 := by
  unfold _triangular
  rw [if_neg (ne_of_lt hab), if_neg (ne_of_lt hbc)]
  split_ifs with h1 h2 h5
  · exact ⟨le_refl 0, zero_le_one⟩
  · exact ⟨zero_le_one, le_refl 1⟩
  · push_neg at h1
    refine ⟨div_nonneg (by linarith [h1.1]) (by linarith), ?_⟩
    rw [div_le_one (by linarith)]
    linarith
  · push_neg at h1 h5
    refine ⟨div_nonneg (by linarith [h1.2]) (by linarith), ?_⟩
    rw [div_le_one (by linarith)]
    linarith

theorem _trapezoidal_mem (x a b c d : ℚ) (hab : a < b) (hbc : b ≤ c)
    (hcd : c < d) : 0 ≤ _trapezoidal x a b c d ∧ _trapezoidal x a b c d ≤ 1 := by
  unfold _trapezoidal
  rw [if_pos (ne_of_gt hab), if_pos (ne_of_gt hcd)]
  split_ifs with h1 h2 h3 h4 h5
  · exact ⟨le_refl 0, zero_le_one⟩
  · exact ⟨zero_le_one, le_refl 1⟩
  · exact ⟨by norm_num, by norm_num⟩
  · exact ⟨by norm_num, by norm_num⟩
  · push_neg at h1 h3
    refine ⟨div_nonneg (by linarith [h3]) (by linarith), ?_⟩
    rw [div_le_one (by linarith)]
    linarith
  · push_neg at h1 h2 h4 h5
    have hxc : c < x := h2 h5
    refine ⟨div_nonneg (by linarith) (by linarith), ?_⟩
    rw [div_le_one (by linarith)]
    linarith

theorem feverMembership_mem (lvl : Level) (x : ℚ) :
    0 ≤ feverMembership lvl x ∧ feverMembership lvl x ≤ 1 := by
  cases lvl
  · exact _trapezoidal_mem x 93.0 95.0 97.5 99.5 (by norm_num) (by norm_num) (by norm_num)
  · exact _triangular_mem x 98.0 99.5 101.0 (by norm_num) (by norm_num)
  · exact _triangular_mem x 99.5 101.0 102.5 (by norm_num) (by norm_num)
  · exact _triangular_mem x 101.0 102.5 104.5 (by norm_num) (by norm_num)
  · exact _trapezoidal_mem x 103.0 104.5 106.0 108.0 (by norm_num) (by norm_num) (by norm_num)
  · exact ⟨le_refl 0, zero_le_one⟩
  · exact ⟨le_refl 0, zero_le_one⟩
  · exact ⟨le_refl 0, zero_le_one⟩
  · exact ⟨le_refl 0, zero_le_one⟩

theorem severityMembership_mem (lvl : Level) (x : ℚ) :
    0 ≤ severityMembership lvl x ∧ severityMembership lvl x ≤ 1 := by
  cases lvl
  · exact ⟨le_refl 0, zero_le_one⟩
  · exact ⟨le_refl 0, zero_le_one⟩
  · exact _triangular_mem x 3.0 5.0 7.5 (by norm_num) (by norm_num)
  · exact ⟨le_refl 0, zero_le_one⟩
  · exact ⟨le_refl 0, zero_le_one⟩
  · exact _trapezoidal_mem x (-1.0) 0.0 0.5 2.5 (by norm_num) (by norm_num) (by norm_num)
  · exact _triangular_mem x 0.5 2.5 5.0 (by norm_num) (by norm_num)
  · exact _triangular_mem x 5.5 7.5 9.5 (by norm_num) (by norm_num)
  · exact _trapezoidal_mem x 7.5 8.5 10.0 11.0 (by norm_num) (by norm_num) (by norm_num)

theorem membershipOf_mem (k : Symptom) (lvl : Level) (x : ℚ) :
    0 ≤ membershipOf k lvl x ∧ membershipOf k lvl x ≤ 1 := by
  unfold membershipOf
  split_ifs
  · exact feverMembership_mem lvl x
  · exact severityMembership_mem lvl x

/-! ### Facts about the fuzzy accumulators -/

theorem totalWeight_nonneg (input : Input) :
    ∀ rules : List (Symptom × Level × ℚ), (∀ e ∈ rules, 0 ≤ e.2.2) →
      0 ≤ totalWeight input rules := by
  intro rules
  induction rules with
  | nil => intro _; exact le_refl 0
  | cons e t ih =>
    intro h
    obtain ⟨k, lvl, w⟩ := e
    have hw : 0 ≤ w := h (k, lvl, w) (List.mem_cons_self _ _)
    have ht : 0 ≤ totalWeight input t := ih (fun e he => h e (List.mem_cons_of_mem _ he))
    show 0 ≤ (if (input k).isSome then w else 0) + totalWeight input t
    split_ifs <;> linarith

theorem weightedSum_nonneg (input : Input) :
    ∀ rules : List (Symptom × Level × ℚ), (∀ e ∈ rules, 0 ≤ e.2.2) →
      0 ≤ weightedSum input rules := by
  intro rules
  induction rules with
  | nil => intro _; exact le_refl 0
  | cons e t ih =>
    intro h
    obtain ⟨k, lvl, w⟩ := e
    have hw : 0 ≤ w := h (k, lvl, w) (List.mem_cons_self _ _)
    have ht : 0 ≤ weightedSum input t := ih (fun e he => h e (List.mem_cons_of_mem _ he))
    show 0 ≤ (match input k with
      | some v => membershipOf k lvl v * w
      | Option.none => 0) + weightedSum input t
    cases hv : input k with
    | none => simpa using ht
    | some v =>
      have := (membershipOf_mem k lvl v).1
      have : 0 ≤ membershipOf k lvl v * w := mul_nonneg this hw
      simpa using add_nonneg this ht

theorem weightedSum_le_totalWeight (input : Input) :
    ∀ rules : List (Symptom × Level × ℚ), (∀ e ∈ rules, 0 ≤ e.2.2) →
      weightedSum input rules ≤ totalWeight input rules := by
  intro rules
  induction rules with
  | nil => intro _; exact le_refl 0
  | cons e t ih =>
    intro h
    obtain ⟨k, lvl, w⟩ := e
    have hw : 0 ≤ w := h (k, lvl, w) (List.mem_cons_self _ _)
    have ht := ih (fun e he => h e (List.mem_cons_of_mem _ he))
    show (match input k with
      | some v => membershipOf k lvl v * w
      | Option.none => 0) + weightedSum input t ≤
      (if (input k).isSome then w else 0) + totalWeight input t
    cases hv : input k with
    | none => simpa [hv] using ht
    | some v =>
      have hm := membershipOf_mem k lvl v
      have : membershipOf k lvl v * w ≤ w := by
        calc membershipOf k lvl v * w ≤ 1 * w :=
          mul_le_mul_of_nonneg_right hm.2 hw
        _ = w := one_mul w
      simpa [hv] using add_le_add this ht

theorem totalWeight_pos (input : Input) :
    ∀ rules : List (Symptom × Level × ℚ), (∀ e ∈ rules, 0 ≤ e.2.2) →
      ∀ k lvl w, (k, lvl, w) ∈ rules → 0 < w → (input k).isSome →
        0 < totalWeight input rules := by
  intro rules
  induction rules with
  | nil => intro _ k lvl w hmem; exact absurd hmem (List.not_mem_nil _)
  | cons e t ih =>
    intro h k lvl w hmem hw hk
    obtain ⟨k', lvl', w'⟩ := e
    have ht0 : 0 ≤ totalWeight input t :=
      totalWeight_nonneg input t (fun e he => h e (List.mem_cons_of_mem _ he))
    show 0 < (if (input k').isSome then w' else 0) + totalWeight input t
    rcases List.mem_cons.mp hmem with heq | hmem'
    · injection heq with hk1 hrest
      injection hrest with hk2 hk3
      subst hk1
      subst hk3
      rw [if_pos hk]
      linarith
    · have hw0 : 0 ≤ w' := h (k', lvl', w') (List.mem_cons_self _ _)
      have := ih (fun e he => h e (List.mem_cons_of_mem _ he)) k lvl w hmem' hw hk
      split_ifs <;> linarith

/-! ### Facts about rounding -/

theorem round4_nonneg {q : ℚ} (h : 0 ≤ q) : 0 ≤ round4 q := by
  unfold round4
  apply div_nonneg _ (by norm_num)
  have : (0 : ℤ) ≤ round (q * 10000) := by
    rw [round_eq]
    exact Int.floor_nonneg.mpr (by linarith)
  exact_mod_cast this

theorem round4_le_one {q : ℚ} (h : q ≤ 1) : round4 q ≤ 1 := by
  unfold round4
  rw [div_le_one (by norm_num)]
  have : round (q * 10000) ≤ (10000 : ℤ) := by
    rw [round_eq]
    rw [Int.floor_le_iff]
    push_cast
    linarith
  exact_mod_cast this

theorem abs_round4_sub (q : ℚ) : |round4 q - q| ≤ 1 / 20000 := by
  have h := abs_sub_round (q * 10000)
  rw [abs_sub_comm] at h
  have heq : round4 q - q = ((round (q * 10000) : ℚ) - q * 10000) / 10000 := by
    unfold round4
    ring
  rw [heq, abs_div, abs_of_pos (show (0:ℚ) < 10000 by norm_num)]
  linarith

/-! ### List-sum helpers -/

theorem sum_map_round4_close {α : Type} (L : List α) (f : α → ℚ) :
    |(L.map fun a => round4 (f a)).sum - (L.map f).sum| ≤ (L.length : ℚ) / 20000 := by
  induction L with
  | nil => simp
  | cons a t ih =>
    simp only [List.map_cons, List.sum_cons, List.length_cons]
    have h1 := abs_round4_sub (f a)
    have h2 : |round4 (f a) + (t.map fun a => round4 (f a)).sum -
        (f a + (t.map f).sum)| ≤ |round4 (f a) - f a| +
        |(t.map fun a => round4 (f a)).sum - (t.map f).sum| := by
      have := abs_add (round4 (f a) - f a)
        ((t.map fun a => round4 (f a)).sum - (t.map f).sum)
      calc |round4 (f a) + (t.map fun a => round4 (f a)).sum - (f a + (t.map f).sum)|
          = |(round4 (f a) - f a) +
            ((t.map fun a => round4 (f a)).sum - (t.map f).sum)| := by ring_nf
        _ ≤ _ := this
    push_cast
    calc |round4 (f a) + (t.map fun a => round4 (f a)).sum - (f a + (t.map f).sum)|
        ≤ |round4 (f a) - f a| +
          |(t.map fun a => round4 (f a)).sum - (t.map f).sum| := h2
      _ ≤ 1 / 20000 + (t.length : ℚ) / 20000 := add_le_add h1 ih
      _ = ((t.length : ℚ) + 1) / 20000 := by ring

theorem sum_map_linear {α : Type} (L : List α) (u v : α → ℚ) (fw cw : ℚ) :
    (L.map fun a => fw * u a + cw * v a).sum =
      fw * (L.map u).sum + cw * (L.map v).sum := by
  induction L with
  | nil => simp
  | cons a t ih =>
    simp only [List.map_cons, List.sum_cons, ih]
    ring

theorem sum_map_div {α : Type} (L : List α) (u : α → ℚ) (t : ℚ) :
    (L.map fun a => u a / t).sum = (L.map u).sum / t := by
  induction L with
  | nil => simp
  | cons a l ih =>
    simp only [List.map_cons, List.sum_cons, ih]
    rw [add_div]

theorem sum_filterMap_snd {α : Type} (L : List α) (f : α → Option ℚ) :
    ((L.filterMap fun a => (f a).map (fun s => (a, s))).map Prod.snd).sum =
      (L.map fun a => (f a).getD 0).sum := by
  induction L with
  | nil => rfl
  | cons a t ih =>
    cases h : f a <;> simp [List.filterMap_cons, h, ih]

/-! ### Decidable facts about the static rule tables -/

/-- Every fuzzy rule weight is positive. -/
theorem rules_weight_pos : ∀ d : Disease, ∀ e ∈ FUZZY_DISEASE_RULES d, 0 < e.2.2 := by
  decide

/-- Every disease's rule table has an entry (with positive weight) for
every one of the 20 symptom keys. -/
theorem rules_cover :
    ∀ d : Disease, ∀ k : Symptom,
      ∃ e ∈ FUZZY_DISEASE_RULES d, e.1 = k ∧ 0 < e.2.2 := by
  decide

theorem mem_SYMPTOM_ORDER (k : Symptom) : k ∈ SYMPTOM_ORDER := by
  cases k <;> decide

theorem mem_diseaseList (d : Disease) : d ∈ diseaseList := by
  cases d <;> decide

/-! ### The non-empty-input guard and fuzzy-score totals -/

theorem guard_false_of_some (input : Input) (h : ∃ k, (input k).isSome) :
    SYMPTOM_ORDER.all (fun k => (input k).isNone) = false := by
  obtain ⟨k, hk⟩ := h
  by_contra hg
  rw [Bool.not_eq_false, List.all_eq_true] at hg
  have hno := hg k (mem_SYMPTOM_ORDER k)
  rw [Option.isNone_iff_eq_none] at hno
  rw [hno] at hk
  exact Bool.false_ne_true hk

theorem fuzzyScore_isSome (input : Input) (d : Disease)
    (h : ∃ k, (input k).isSome) : ∃ s, fuzzyScore input d = some s := by
  obtain ⟨k, hk⟩ := h
  obtain ⟨e, he, hek, hew⟩ := rules_cover d k
  obtain ⟨k', lvl, w⟩ := e
  have hk' : k' = k := hek
  subst hk'
  have hnn : ∀ e ∈ FUZZY_DISEASE_RULES d, 0 ≤ e.2.2 :=
    fun e he => le_of_lt (rules_weight_pos d e he)
  have htw : 0 < totalWeight input (FUZZY_DISEASE_RULES d) :=
    totalWeight_pos input (FUZZY_DISEASE_RULES d) hnn k' lvl w he hew hk
  unfold fuzzyScore
  rw [if_pos htw]
  exact ⟨_, rfl⟩

theorem fuzzyTotal_eq_sum (input : Input)
    (hg : SYMPTOM_ORDER.all (fun k => (input k).isNone) = false) :
    fuzzyTotal input = (diseaseList.map fun d => (fuzzyScore input d).getD 0).sum := by
  unfold fuzzyTotal fuzzyScores
  simp only [hg, Bool.false_eq_true, if_false]
  exact sum_filterMap_snd diseaseList (fuzzyScore input)

theorem fuzzyTotal_of_guard (input : Input)
    (hg : SYMPTOM_ORDER.all (fun k => (input k).isNone) = true) :
    fuzzyTotal input = 0 := by
  unfold fuzzyTotal fuzzyScores
  rw [if_pos hg]
  rfl

theorem sum_fuzzyNormalized (input : Input) (h : 0 < fuzzyTotal input) :
    (diseaseList.map (fun d => fuzzyNormalized input d)).sum = 1 := by
  have hg : SYMPTOM_ORDER.all (fun k => (input k).isNone) = false := by
    by_contra hg
    rw [Bool.not_eq_false] at hg
    rw [fuzzyTotal_of_guard input hg] at h
    exact lt_irrefl 0 h
  have hfun : (fun d => fuzzyNormalized input d) =
      (fun d => ((fuzzyScore input d).getD 0) / fuzzyTotal input) := by
    funext d
    unfold fuzzyNormalized
    exact if_pos h
  rw [hfun, sum_map_div, ← fuzzyTotal_eq_sum input hg]
  exact div_self (ne_of_gt h)

/-! ### Weight facts -/

theorem defaultWeights_cases (n : ℕ) :
    defaultWeights n = (0.65, 0.35) ∨ defaultWeights n = (0.50, 0.50) ∨
      defaultWeights n = (0.40, 0.60) := by
  unfold defaultWeights
  split_ifs
  · exact Or.inl rfl
  · exact Or.inr (Or.inl rfl)
  · exact Or.inr (Or.inr rfl)

theorem consensusWeights_facts (input : Input) :
    (consensusWeights input).1 + (consensusWeights input).2 = 1 ∧
      0 ≤ (consensusWeights input).1 ∧ (consensusWeights input).1 ≤ 1 ∧
      0 ≤ (consensusWeights input).2 ∧ (consensusWeights input).2 ≤ 1 := by
  unfold consensusWeights adjustWeights
  rcases defaultWeights_cases (numProvided input) with h | h | h <;> rw [h] <;>
    split_ifs <;> norm_num [max_def]

theorem defaultWeights_fst_ge (n : ℕ) : 0.30 ≤ (defaultWeights n).1 := by
  rcases defaultWeights_cases n with h | h | h <;> rw [h] <;> norm_num

/-! ### Claim C5 -/

/-- C5: for every symptom key and every value within that symptom's
declared `[min, max]` range, every membership degree computed by
`get_membership` lies in `[0, 1]`; and for every in-range symptom
input, every per-disease score returned by the fuzzy `predict` lies in
`[0, 1]`. -/
theorem claim_C5 :
    (∀ (k : Symptom) (x : ℚ), SYMPTOMS_min k ≤ x → x ≤ SYMPTOMS_max k →
      ∀ p ∈ get_membership k x, 0 ≤ p.2 ∧ p.2 ≤ 1) ∧
    (∀ input : Input,
      (∀ k v, input k = some v → SYMPTOMS_min k ≤ v ∧ v ≤ SYMPTOMS_max k) →
      ∀ (d : Disease) (s : ℚ), fuzzyScore input d = some s →
        0 ≤ s ∧ s ≤ 1) := by
  constructor
  · intro k x _ _ p hp
    unfold get_membership at hp
    obtain ⟨lvl, _, rfl⟩ := List.mem_map.mp hp
    exact membershipOf_mem k lvl x
  · intro input _ d s hs
    unfold fuzzyScore at hs
    by_cases htw : 0 < totalWeight input (FUZZY_DISEASE_RULES d)
    · rw [if_pos htw] at hs
      obtain rfl := Option.some.inj hs
      have hnn : ∀ e ∈ FUZZY_DISEASE_RULES d, 0 ≤ e.2.2 :=
        fun e he => le_of_lt (rules_weight_pos d e he)
      have h0 := weightedSum_nonneg input (FUZZY_DISEASE_RULES d) hnn
      have h1 := weightedSum_le_totalWeight input (FUZZY_DISEASE_RULES d) hnn
      constructor
      · exact round4_nonneg (div_nonneg h0 (le_of_lt htw))
      · exact round4_le_one (by rw [div_le_one htw]; exact h1)
    · rw [if_neg htw] at hs
      exact absurd hs (by simp)

theorem claim_C5_witness :
    fuzzyScore input7 Disease.Malaria = some (4043/5000) ∧
    (0 ≤ (4043 : ℚ)/5000 ∧ (4043 : ℚ)/5000 ≤ 1) := by
  have hrange : ∀ k v, input7 k = some v →
      SYMPTOMS_min k ≤ v ∧ v ≤ SYMPTOMS_max k := by
    intro k v hv
    cases k <;> simp only [input7] at hv <;>
      first
        | exact Option.noConfusion hv
        | (injection hv with hv; subst hv; exact ⟨by decide, by decide⟩)
  exact ⟨by decide, claim_C5.2 input7 hrange Disease.Malaria (4043/5000) (by decide)⟩

/-! ### Claim C6 -/

/-- C6 counterexample: at distance `1e-10` below the peak `b = 1` (with
`a = 0`, `c = 2`), `_triangular` returns exactly 1 — the `1e-9`
tolerance band — instead of the linear ramp value `(x - a) / (b - a)`,
so the function is not linear on the rising segment. -/
theorem claim_C6_counterexample :
    _triangular (1 - 1/10000000000) 0 1 2 = 1 ∧
    ((1 - 1/10000000000 : ℚ) - 0) / (1 - 0) ≠ 1 ∧
    _triangular (1 - 1/10000000000) 0 1 2 ≠
      ((1 - 1/10000000000 : ℚ) - 0) / (1 - 0) := by
  refine ⟨by decide, by decide, by decide⟩

/-- C6 (amended): `_triangular` is 0 strictly outside `[a, c]`, is
exactly 1 at `x = b` and on the whole band `|x - b| < 1e-9`, and is
linear on the two segments at distance at least `1e-9` from `b`;
`_trapezoidal` is 0 strictly outside `[a, d]`, exactly 1 on `[b, c]`,
exactly the linear ramps strictly between `a` and `b` and between `c`
and `d`, and exactly `0.01` at the boundary points `a` and `d`. -/
theorem claim_C6 (x a b c d : ℚ) :
    (a < b → b < c →
      ((x < a ∨ x > c) → _triangular x a b c = 0) ∧
      _triangular b a b c = 1 ∧
      (a ≤ x → x ≤ c → |x - b| < 1/1000000000 → _triangular x a b c = 1) ∧
      (a ≤ x → x ≤ b → 1/1000000000 ≤ b - x →
        _triangular x a b c = (x - a) / (b - a)) ∧
      (b ≤ x → x ≤ c → 1/1000000000 ≤ x - b →
        _triangular x a b c = (c - x) / (c - b))) ∧
    (a < b → b ≤ c → c < d →
      ((x < a ∨ x > d) → _trapezoidal x a b c d = 0) ∧
      (b ≤ x → x ≤ c → _trapezoidal x a b c d = 1) ∧
      (a < x → x < b → _trapezoidal x a b c d = (x - a) / (b - a)) ∧
      (c < x → x < d → _trapezoidal x a b c d = (d - x) / (d - c)) ∧
      _trapezoidal a a b c d = 0.01 ∧
      _trapezoidal d a b c d = 0.01) := by
  constructor
  · intro hab hbc
    refine ⟨?_, ?_, ?_, ?_, ?_⟩
    · intro h
      unfold _triangular
      rw [if_pos h]
    · unfold _triangular
      rw [if_neg (by push_neg; constructor <;> linarith),
        if_pos (by rw [sub_self, abs_zero]; norm_num)]
    · intro h1 h2 h3
      unfold _triangular
      rw [if_neg (by push_neg; exact ⟨h1, h2⟩), if_pos h3]
    · intro h1 h2 h3
      have hxb : x < b := by linarith
      unfold _triangular
      rw [if_neg (by push_neg; constructor <;> linarith),
        if_neg (by rw [abs_sub_comm, abs_of_nonneg (by linarith)]; linarith),
        if_neg (ne_of_lt hab), if_neg (ne_of_lt hbc), if_pos (le_of_lt hxb)]
    · intro h1 h2 h3
      have hbx : b < x := by linarith
      unfold _triangular
      rw [if_neg (by push_neg; constructor <;> linarith),
        if_neg (by rw [abs_of_nonneg (by linarith)]; linarith),
        if_neg (ne_of_lt hab), if_neg (ne_of_lt hbc),
        if_neg (not_le.mpr hbx)]
  · intro hab hbc hcd
    refine ⟨?_, ?_, ?_, ?_, ?_, ?_⟩
    · intro h
      unfold _trapezoidal
      rw [if_pos h]
    · intro h1 h2
      unfold _trapezoidal
      rw [if_neg (by push_neg; constructor <;> linarith), if_pos ⟨h1, h2⟩]
    · intro h1 h2
      unfold _trapezoidal
      rw [if_neg (by push_neg; constructor <;> linarith),
        if_neg (by push_neg; intro hbx; linarith),
        if_neg (not_le.mpr h1), if_neg (not_le.mpr (by linarith)),
        if_pos h2, if_pos (ne_of_gt hab)]
    · intro h1 h2
      unfold _trapezoidal
      rw [if_neg (by push_neg; constructor <;> linarith),
        if_neg (by push_neg; intro hbx; linarith),
        if_neg (not_le.mpr (by linarith)), if_neg (not_le.mpr h2),
        if_neg (not_lt.mpr (by linarith)), if_pos (ne_of_gt hcd)]
    · unfold _trapezoidal
      rw [if_neg (by push_neg; constructor <;> linarith),
        if_neg (by push_neg; intro hba; linarith), if_pos (le_refl a)]
    · unfold _trapezoidal
      rw [if_neg (by push_neg; constructor <;> linarith),
        if_neg (by push_neg; intro hbd; linarith),
        if_neg (not_le.mpr (by linarith)), if_pos (le_refl d)]

theorem claim_C6_witness :
    _triangular 0.5 0 1 2 = (0.5 - 0) / (1 - 0) ∧
    _trapezoidal 2.5 0 1 2 3 = (3 - 2.5) / (3 - 2) ∧
    _trapezoidal 0 0 1 2 3 = 0.01 ∧
    _triangular 1 0 1 2 = 1 := by
  refine ⟨?_, ?_, ?_, ?_⟩
  · exact (((claim_C6 0.5 0 1 2 3).1 (by norm_num) (by norm_num)).2.2.2.1
      (by norm_num) (by norm_num) (by norm_num))
  · exact (((claim_C6 2.5 0 1 2 3).2 (by norm_num) (by norm_num) (by norm_num)).2.2.2.1
      (by norm_num) (by norm_num))
  · exact (((claim_C6 0 0 1 2 3).2 (by norm_num) (by norm_num) (by norm_num)).2.2.2.2.1)
  · exact (((claim_C6 1 0 1 2 3).1 (by norm_num) (by norm_num)).2.1)

/-! ### Claim C7 -/

/-- C7: on the classic malaria presentation (`fever=103.0, headache=7,
chills=9, fatigue=7, muscle_pain=5, nausea_vomiting=5,
loss_of_appetite=6`) the fuzzy engine's top disease is Malaria, whose
score strictly exceeds every other disease's. -/
theorem claim_C7 :
    fuzzyTop input7 = some Disease.Malaria ∧
    ∀ d : Disease, d ≠ Disease.Malaria →
      (fuzzyScore input7 d).getD 0 <
        (fuzzyScore input7 Disease.Malaria).getD 0 := by
  refine ⟨by decide, by decide⟩

theorem claim_C7_witness :
    (fuzzyScore input7 Disease.DengueFever).getD 0 <
      (fuzzyScore input7 Disease.Malaria).getD 0 :=
  claim_C7.2 Disease.DengueFever (by decide)

/-! ### Claim C2 -/

/-- C2 counterexample: an input providing exactly 12 of the 20 symptoms
has completeness exactly 0.60, and the default weights are
`(0.40, 0.60)`, not the `(0.50, 0.50)` the claim asserts (the source's
`completeness < 0.60` bound is strict). -/
theorem claim_C2_counterexample :
    ((12 : ℕ) : ℚ) / 20 = 0.60 ∧
    defaultWeights 12 = (0.40, 0.60) ∧
    defaultWeights 12 ≠ (0.50, 0.50) := by
  refine ⟨by norm_num, by norm_num [defaultWeights], by norm_num [defaultWeights]⟩

/-- C2 (amended): without overrides, completeness < 0.30 gives weights
0.65/0.35; completeness in [0.30, 0.60) gives 0.50/0.50; completeness
≥ 0.60 gives 0.40/0.60, so the default classifier weight strictly
increases (0.35 → 0.50 → 0.60) across the thresholds; an input
providing exactly 12 of 20 symptoms (completeness exactly 0.60) gets
weights 0.40/0.60. -/
theorem claim_C2 (n : ℕ) :
    ((n : ℚ) / 20 < 0.30 → defaultWeights n = (0.65, 0.35)) ∧
    (0.30 ≤ (n : ℚ) / 20 → (n : ℚ) / 20 < 0.60 →
      defaultWeights n = (0.50, 0.50)) ∧
    (0.60 ≤ (n : ℚ) / 20 → defaultWeights n = (0.40, 0.60)) ∧
    ((0.35 : ℚ) < 0.50 ∧ (0.50 : ℚ) < 0.60) ∧
    defaultWeights 12 = (0.40, 0.60) := by
  refine ⟨?_, ?_, ?_, ⟨by norm_num, by norm_num⟩, by norm_num [defaultWeights]⟩
  · intro h
    unfold defaultWeights
    rw [if_pos h]
  · intro h1 h2
    unfold defaultWeights
    rw [if_neg (not_lt.mpr h1), if_pos h2]
  · intro h
    unfold defaultWeights
    rw [if_neg (not_lt.mpr (le_trans (by norm_num) h)), if_neg (not_lt.mpr h)]

theorem claim_C2_witness :
    defaultWeights 4 = (0.65, 0.35) ∧ defaultWeights 8 = (0.50, 0.50) ∧
    defaultWeights 13 = (0.40, 0.60) :=
  ⟨(claim_C2 4).1 (by norm_num), (claim_C2 8).2.1 (by norm_num) (by norm_num),
   (claim_C2 13).2.2.1 (by norm_num)⟩

/-! ### Claim C10 -/

/-- C10: every disease's fuzzy rule table covers all 20 symptom keys,
so for every non-empty symptom input every disease accumulates a
strictly positive total rule weight, receives a fuzzy score entry, and
appears in the score map — no disease is ever omitted. -/
theorem claim_C10 (input : Input) (h : ∃ k, (input k).isSome) :
    (∀ d : Disease, ∀ k : Symptom, ∃ e ∈ FUZZY_DISEASE_RULES d, e.1 = k) ∧
    ∀ d : Disease, 0 < totalWeight input (FUZZY_DISEASE_RULES d) ∧
      ∃ s, fuzzyScore input d = some s ∧ (d, s) ∈ fuzzyScores input := by
  have hg := guard_false_of_some input h
  constructor
  · intro d k
    obtain ⟨e, he, hek, _⟩ := rules_cover d k
    exact ⟨e, he, hek⟩
  · intro d
    obtain ⟨k, hk⟩ := h
    obtain ⟨e, he, hek, hew⟩ := rules_cover d k
    obtain ⟨k', lvl, w⟩ := e
    have hkk : k' = k := hek
    subst hkk
    have hnn : ∀ e ∈ FUZZY_DISEASE_RULES d, 0 ≤ e.2.2 :=
      fun e he => le_of_lt (rules_weight_pos d e he)
    have htw := totalWeight_pos input (FUZZY_DISEASE_RULES d) hnn k' lvl w he hew hk
    refine ⟨htw,
      round4 (weightedSum input (FUZZY_DISEASE_RULES d) /
        totalWeight input (FUZZY_DISEASE_RULES d)), ?_, ?_⟩
    · unfold fuzzyScore
      rw [if_pos htw]
    · unfold fuzzyScores
      simp only [hg, Bool.false_eq_true, if_false]
      refine List.mem_filterMap.mpr ⟨d, mem_diseaseList d, ?_⟩
      unfold fuzzyScore
      rw [if_pos htw]
      rfl

theorem claim_C10_witness :
    0 < totalWeight inputHeadache10 (FUZZY_DISEASE_RULES Disease.Malaria) ∧
    ∃ s, fuzzyScore inputHeadache10 Disease.Malaria = some s ∧
      (Disease.Malaria, s) ∈ fuzzyScores inputHeadache10 :=
  (claim_C10 inputHeadache10 ⟨Symptom.headache, rfl⟩).2 Disease.Malaria

/-! ### Claim C3 -/

/-- C3: the fuzzy confidence gap is 1.0 whenever fewer than two
diseases received a fuzzy score or the top raw fuzzy score is 0 (the
division is guarded); whenever the gap is below 0.15 the effective
fuzzy weight becomes `max(fuzzy_weight * 0.5, 0.15)` — at least 0.15,
and at most half the prior weight whenever that weight is at least 0.30,
which every default weight is — and the classifier weight is recomputed
as `1 - fuzzy_weight`. -/
theorem claim_C3 (input : Input) (fw cw : ℚ) :
    ((fuzzyScores input).length ≤ 1 → fuzzyGap input = 1) ∧
    ((∀ p ∈ fuzzyScores input, p.2 = 0) → fuzzyGap input = 1) ∧
    (fuzzyGap input < 0.15 →
      adjustWeights (fuzzyGap input) fw cw =
        (max (fw * 0.5) 0.15, 1 - max (fw * 0.5) 0.15)) ∧
    (fuzzyGap input < 0.15 →
      0.15 ≤ (adjustWeights (fuzzyGap input) fw cw).1 ∧
      (adjustWeights (fuzzyGap input) fw cw).2 =
        1 - (adjustWeights (fuzzyGap input) fw cw).1) ∧
    (fuzzyGap input < 0.15 → 0.30 ≤ fw →
      (adjustWeights (fuzzyGap input) fw cw).1 ≤ fw * 0.5) ∧
    0.30 ≤ (defaultWeights (numProvided input)).1 := by
  refine ⟨?_, ?_, ?_, ?_, ?_, defaultWeights_fst_ge (numProvided input)⟩
  · intro h
    unfold fuzzyGap
    rcases hm : List.insertionSort ratGE ((fuzzyScores input).map Prod.snd)
      with _ | ⟨v0, _ | ⟨v1, rest⟩⟩
    · rfl
    · rfl
    · exfalso
      have hl := (List.perm_insertionSort ratGE
        ((fuzzyScores input).map Prod.snd)).length_eq
      rw [hm, List.length_map] at hl
      simp only [List.length_cons] at hl
      omega
  · intro h
    unfold fuzzyGap
    rcases hm : List.insertionSort ratGE ((fuzzyScores input).map Prod.snd)
      with _ | ⟨v0, _ | ⟨v1, rest⟩⟩
    · rfl
    · rfl
    · have hv0 : v0 ∈ (fuzzyScores input).map Prod.snd := by
        have hmem : v0 ∈ List.insertionSort ratGE
            ((fuzzyScores input).map Prod.snd) := by
          rw [hm]
          exact List.mem_cons_self _ _
        exact (List.perm_insertionSort ratGE _).mem_iff.mp hmem
      obtain ⟨p, hp, hps⟩ := List.mem_map.mp hv0
      have hz : v0 = 0 := by rw [← hps]; exact h p hp
      subst hz
      show (if (0 : ℚ) < 0 then ((0 : ℚ) - v1) / 0 else 1) = 1
      rw [if_neg (lt_irrefl (0 : ℚ))]
  · intro h
    unfold adjustWeights
    rw [if_pos h]
  · intro h
    unfold adjustWeights
    rw [if_pos h]
    exact ⟨le_max_right _ _, rfl⟩
  · intro h hfw
    unfold adjustWeights
    rw [if_pos h]
    exact max_le (le_refl _) (by linarith)

theorem claim_C3_witness :
    fuzzyGap emptyInput = 1 ∧
    adjustWeights (fuzzyGap inputFever103) 0.65 0.35 = (0.325, 0.675) ∧
    (adjustWeights (fuzzyGap inputFever103) 0.65 0.35).1 ≤ 0.65 * 0.5 := by
  refine ⟨(claim_C3 emptyInput 0.65 0.35).1 (by decide), ?_,
    (claim_C3 inputFever103 0.65 0.35).2.2.2.2.1 (by decide) (by norm_num)⟩
  have h := (claim_C3 inputFever103 0.65 0.35).2.2.1 (by decide)
  rw [h]
  norm_num [max_def]

/-! ### Claim C9 -/

/-- C9: the static knowledge base satisfies the startup integrity
invariants — each of the 10 disease profiles defines a (prevalence,
mean, std) triple for all 20 symptom keys, every prevalence lies in
[0, 1], and every fuzzy rule's expected level names a level of the
applicable fuzzy-set family — and initialization (modelled from the
spec) succeeds exactly on tables satisfying them, refusing any
violating tables. -/
theorem claim_C9 :
    kbIntegrity DISEASE_PROFILES FUZZY_DISEASE_RULES ∧
    initKnowledgeBase DISEASE_PROFILES FUZZY_DISEASE_RULES =
      some (DISEASE_PROFILES, FUZZY_DISEASE_RULES) ∧
    ∀ P R, ¬kbIntegrity P R → initKnowledgeBase P R = Option.none := by
  have h : kbIntegrity DISEASE_PROFILES FUZZY_DISEASE_RULES := by decide
  refine ⟨h, ?_, ?_⟩
  · unfold initKnowledgeBase
    rw [if_pos h]
  · intro P R hn
    unfold initKnowledgeBase
    rw [if_neg hn]

/-! ### Claim C1 -/

/-- C1 counterexample: the valid non-empty input `{headache: 10}`
zeroes every raw fuzzy score (so their sum is 0); with a classifier
returning the uniform distribution (which sums to 1) the consensus
values sum to 0.35 — the classifier weight — not to 1 within ±1e-3. -/
theorem claim_C1_counterexample :
    fuzzyTotal inputHeadache10 = 0 ∧
    (diseaseList.map (fun d =>
      uniformModel (featureVector inputHeadache10) d)).sum = 1 ∧
    ((consensusScores inputHeadache10 uniformModel).map Prod.snd).sum = 7/20 ∧
    ¬(|((consensusScores inputHeadache10 uniformModel).map Prod.snd).sum - 1|
      ≤ 1/1000) := by
  refine ⟨by decide, by decide, by decide, by decide⟩

/-- C1 (amended): for every symptom input whose raw fuzzy scores sum
to a positive value, and every classifier output distribution summing
to 1, the consensus score values sum to 1 within ±1e-3 (the weights
always sum to 1 and both distributions are convexly combined; when the
raw fuzzy sum is 0, the normalized fuzzy map is all zeros and the
consensus instead sums to the classifier weight). -/
theorem claim_C1 (input : Input) (model : List ℚ → Disease → ℚ)
    (hpos : 0 < fuzzyTotal input)
    (hsum : (diseaseList.map (fun d => model (featureVector input) d)).sum = 1) :
    |((consensusScores input model).map Prod.snd).sum - 1| ≤ 1/1000 := by
  obtain ⟨hw1, _, _, hcw0, hcw1⟩ := consensusWeights_facts input
  have hlen : ((diseaseList.length : ℕ) : ℚ) / 20000 = 1/2000 := by
    norm_num [diseaseList]
  have hmap : (consensusScores input model).map Prod.snd =
      diseaseList.map (fun d =>
        round4 ((consensusWeights input).1 * fuzzyNormalized input d +
          (consensusWeights input).2 * rfProb model input d)) := by
    unfold consensusScores
    rw [List.map_map]
    rfl
  have hrf : |(diseaseList.map (fun d => rfProb model input d)).sum - 1|
      ≤ 1/2000 := by
    have h := sum_map_round4_close diseaseList
      (fun d => model (featureVector input) d)
    rw [hsum, hlen] at h
    exact h
  have hlin : (diseaseList.map (fun d =>
      (consensusWeights input).1 * fuzzyNormalized input d +
      (consensusWeights input).2 * rfProb model input d)).sum =
      (consensusWeights input).1 + (consensusWeights input).2 *
        (diseaseList.map (fun d => rfProb model input d)).sum := by
    rw [sum_map_linear diseaseList (fun d => fuzzyNormalized input d)
      (fun d => rfProb model input d) (consensusWeights input).1
      (consensusWeights input).2, sum_fuzzyNormalized input hpos, mul_one]
  have hround := sum_map_round4_close diseaseList (fun d =>
    (consensusWeights input).1 * fuzzyNormalized input d +
    (consensusWeights input).2 * rfProb model input d)
  rw [hlen] at hround
  rw [hmap]
  have hB : (diseaseList.map (fun d =>
      (consensusWeights input).1 * fuzzyNormalized input d +
      (consensusWeights input).2 * rfProb model input d)).sum - 1 =
      (consensusWeights input).2 *
        ((diseaseList.map (fun d => rfProb model input d)).sum - 1) := by
    rw [hlin]
    linear_combination hw1
  calc |(diseaseList.map (fun d =>
        round4 ((consensusWeights input).1 * fuzzyNormalized input d +
          (consensusWeights input).2 * rfProb model input d))).sum - 1|
      ≤ |(diseaseList.map (fun d =>
          round4 ((consensusWeights input).1 * fuzzyNormalized input d +
            (consensusWeights input).2 * rfProb model input d))).sum -
          (diseaseList.map (fun d =>
            (consensusWeights input).1 * fuzzyNormalized input d +
            (consensusWeights input).2 * rfProb model input d)).sum| +
        |(diseaseList.map (fun d =>
          (consensusWeights input).1 * fuzzyNormalized input d +
          (consensusWeights input).2 * rfProb model input d)).sum - 1| :=
      abs_sub_le _ _ _
    _ ≤ 1/2000 + |(diseaseList.map (fun d =>
          (consensusWeights input).1 * fuzzyNormalized input d +
          (consensusWeights input).2 * rfProb model input d)).sum - 1| :=
      add_le_add_right hround _
    _ = 1/2000 + (consensusWeights input).2 *
        |(diseaseList.map (fun d => rfProb model input d)).sum - 1| := by
      rw [hB, abs_mul, abs_of_nonneg hcw0]
    _ ≤ 1/2000 + 1 * (1/2000) := by
      have := mul_le_mul hcw1 hrf (abs_nonneg _) zero_le_one
      linarith
    _ ≤ 1/1000 := by norm_num

theorem claim_C1_witness :
    0 < fuzzyTotal input7 ∧
    (diseaseList.map (fun d => uniformModel (featureVector input7) d)).sum = 1 ∧
    |((consensusScores input7 uniformModel).map Prod.snd).sum - 1| ≤ 1/1000 :=
  ⟨by decide, by decide, claim_C1 input7 uniformModel (by decide) (by decide)⟩

/-! ### Claim C4 -/

/-- C4: an empty symptom map short-circuits `consensus_predict` to
exactly the canonical empty result, whatever the classifier — empty
predictions, all three top picks absent, `models_agree = false`,
`confidence_level = "Low"`, validation status `"uncertain"`,
reliability score 0, exactly the warning "No symptoms provided." and
exactly one recommendation — with no weighting, fuzzy-inference,
classifier or combination step involved. -/
theorem claim_C4 (input : Input) (model : List ℚ → Disease → ℚ)
    (h : ∀ k, input k = Option.none) :
    consensus_predict input model = _empty_result ∧
    _empty_result.predictions = [] ∧
    _empty_result.consensus_top = Option.none ∧
    _empty_result.fuzzy_top = Option.none ∧
    _empty_result.rf_top = Option.none ∧
    _empty_result.models_agree = false ∧
    _empty_result.confidence_level = "Low" ∧
    _empty_result.validation.status = "uncertain" ∧
    _empty_result.validation.reliability_score = 0 ∧
    _empty_result.validation.warnings = ["No symptoms provided."] ∧
    _empty_result.validation.recommendations =
      ["Please enter at least a few symptom values."] := by
  have hi : input = (fun _ => Option.none) := funext h
  subst hi
  exact ⟨rfl, rfl, rfl, rfl, rfl, rfl, rfl, rfl, rfl, rfl, rfl⟩

theorem claim_C4_witness :
    consensus_predict emptyInput uniformModel = _empty_result :=
  (claim_C4 emptyInput uniformModel (fun _ => rfl)).1

/-! ### Claim C8 -/

/-- C8 counterexample: `RFPredictor.predict` short-circuits the empty
symptom map to the empty result `{}` — even with a classifier whose
raw output sums to 1 — so its returned probabilities (there are none)
do not sum to 1 within ±1e-3, contradicting the claim for the empty
input. -/
theorem claim_C8_counterexample :
    (diseaseList.map (fun d => uniformModel (featureVector emptyInput) d)).sum
      = 1 ∧
    rf_predict uniformModel emptyInput = [] ∧
    ¬(|((rf_predict uniformModel emptyInput).map Prod.snd).sum - 1|
      ≤ 1/1000) := by
  refine ⟨by decide, rfl, by decide⟩

/-- C8 (amended): for every NON-EMPTY symptom input,
`RFPredictor.predict` builds the 20-dimensional feature vector in
canonical symptom order, filling each missing key with its healthy
baseline (98.6 for fever, 0 otherwise), and returns every disease's
probability rounded to 4 decimals, sorted descending, summing to 1 up
to rounding (±1e-3) whenever the model's raw probabilities sum to 1;
the empty input instead returns the empty map. -/
theorem claim_C8 (input : Input) (model : List ℚ → Disease → ℚ)
    (hne : ∃ k, (input k).isSome)
    (hsum : (diseaseList.map (fun d => model (featureVector input) d)).sum = 1) :
    (featureVector input).length = 20 ∧
    (∀ k : Symptom, (featureVector input)[SYMPTOM_ORDER.indexOf k]? =
      some ((input k).getD (BASELINE_VALUES k))) ∧
    BASELINE_VALUES Symptom.fever = 98.6 ∧
    (∀ k, k ≠ Symptom.fever → BASELINE_VALUES k = 0) ∧
    (∀ d : Disease, (d, rfProb model input d) ∈ rf_predict model input) ∧
    List.Sorted scoreGE (rf_predict model input) ∧
    |((rf_predict model input).map Prod.snd).sum - 1| ≤ 1/1000 := by
  have hg := guard_false_of_some input hne
  have hrw : rf_predict model input =
      List.insertionSort scoreGE
        (diseaseList.map (fun d => (d, rfProb model input d))) := by
    unfold rf_predict
    simp only [hg, Bool.false_eq_true, if_false]
  refine ⟨rfl, ?_, rfl, ?_, ?_, ?_, ?_⟩
  · intro k
    cases k <;> rfl
  · intro k hk
    unfold BASELINE_VALUES
    rw [if_neg hk]
  · intro d
    rw [hrw]
    exact (List.perm_insertionSort scoreGE _).mem_iff.mpr
      (List.mem_map.mpr ⟨d, mem_diseaseList d, rfl⟩)
  · rw [hrw]
    exact List.sorted_insertionSort scoreGE _
  · rw [hrw]
    have hperm : ((List.insertionSort scoreGE
        (diseaseList.map (fun d => (d, rfProb model input d)))).map
          Prod.snd).sum =
        ((diseaseList.map (fun d => (d, rfProb model input d))).map
          Prod.snd).sum :=
      ((List.perm_insertionSort scoreGE _).map Prod.snd).sum_eq
    rw [hperm, List.map_map]
    have h := sum_map_round4_close diseaseList
      (fun d => model (featureVector input) d)
    rw [hsum] at h
    have hlen : ((diseaseList.length : ℕ) : ℚ) / 20000 = 1/2000 := by
      norm_num [diseaseList]
    rw [hlen] at h
    have hcomp : (Prod.snd ∘ fun d => (d, rfProb model input d)) =
        fun d => round4 (model (featureVector input) d) := rfl
    rw [hcomp]
    linarith [h]

theorem claim_C8_witness :
    List.Sorted scoreGE (rf_predict uniformModel input7) ∧
    |((rf_predict uniformModel input7).map Prod.snd).sum - 1| ≤ 1/1000 := by
  have h := claim_C8 input7 uniformModel ⟨Symptom.fever, rfl⟩ (by decide)
  exact ⟨h.2.2.2.2.2.1, h.2.2.2.2.2.2⟩

end SC
